import Mathlib

set_option linter.unusedVariables false

/-!
# Verification of the TFX extern subsystem of alkahest

Shallow embedding of `crates/alkahest-renderer/src/tfx/externs.rs` and the
technique loader `crates/alkahest-renderer/src/loaders/technique.rs`.

Modelling conventions:
* 32-bit floats are carried as their IEEE-754 bit patterns (`Nat`); the code
  under verification never performs arithmetic on them, it only copies them
  (`ptr.read()` in `Extern::get_field`), so bit-pattern identity is exactly
  the property at stake ("the exact stored bits").
* Rust's runtime `TypeId` dispatch in the generic `get_field::<T>` is
  modelled by a type tag `FieldType` passed explicitly; the registered field
  types of the extern structs all come from the five-element universe
  {f32, u64, Vec4, Mat4, TextureView} used by `extern_struct!`.
* The `extern_struct!` macro expands, for each declaration list, into a
  `get_field` that matches the offset against the declared entries in order,
  checks the `unimplemented` flag first, then the type.  We model the macro
  itself once (`getFieldImpl` over a per-struct table `fields`) and
  transcribe each macro invocation as its table.
* `ID3D11ShaderResourceView` handles are opaque; we model them as `Nat`
  (`0` is the null pointer that `transmute(0u64)` produces).
-/

namespace Alkahest

/-- One uppercase hexadecimal digit, as Rust's `{:X}` prints it. -/
def hexDigit (n : Nat) : Char :=
  if n < 10 then Char.ofNat (48 + n) else Char.ofNat (55 + n)

/-- Accumulator loop for `toHexUpper`. -/
def toHexUpperAux : Nat → List Char → List Char
  | n, acc =>
    if h : n < 16 then hexDigit n :: acc
    else toHexUpperAux (n / 16) (hexDigit (n % 16) :: acc)
  termination_by n => n
  decreasing_by exact Nat.div_lt_self (by omega) (by omega)

/-- `toHexUpper n` renders `n` as Rust's `format!("{n:X}")` does: uppercase
hexadecimal, no leading zeros, `"0"` for zero. -/
def toHexUpper (n : Nat) : String :=
  String.mk (toHexUpperAux n [])

/-- The universe of field types usable in `extern_struct!` declarations. -/
inductive FieldType
  | f32
  | u64
  | vec4
  | mat4
  | textureView
deriving DecidableEq

/-- The Rust source-level name of a field type, as `stringify!($field_type)`
and `short_type_name::<T>()` render it. -/
def FieldType.rustName : FieldType → String
  | .f32 => "f32"
  | .u64 => "u64"
  | .vec4 => "Vec4"
  | .mat4 => "Mat4"
  | .textureView => "TextureView"

/-- `glam::Vec4`: four 32-bit floats, carried as bit patterns. -/
structure Vec4 where
  x : Nat
  y : Nat
  z : Nat
  w : Nat
deriving DecidableEq

/-- `glam::Vec4::ZERO` (also `Vec4::default()`): all components `0.0f32`,
whose bit pattern is 0. -/
def Vec4.zero : Vec4 := ⟨0, 0, 0, 0⟩

/-- The IEEE-754 bit pattern of `1.0f32`. -/
def f32OneBits : Nat := 0x3F800000

/-- `glam::Mat4`: four column vectors. -/
structure Mat4 where
  x_axis : Vec4
  y_axis : Vec4
  z_axis : Vec4
  w_axis : Vec4
deriving DecidableEq

/-- `glam::Mat4::IDENTITY`, which is also `Mat4::default()` in glam. -/
def Mat4.identity : Mat4 :=
  ⟨⟨f32OneBits, 0, 0, 0⟩, ⟨0, f32OneBits, 0, 0⟩,
   ⟨0, 0, f32OneBits, 0⟩, ⟨0, 0, 0, f32OneBits⟩⟩

/-- `TextureView` (externs.rs lines 13-20): `Null`, or a raw
shader-resource-view handle (opaque, modelled as `Nat`).  The `Tracked`
variant is commented out in the source. -/
inductive TextureView
  | Null
  | RawSRV (srv : Nat)
deriving DecidableEq

/-- `AssetManager` is an external collaborator; `TextureView::view` takes it
only for the commented-out `Tracked` arm and never reads it. -/
structure AssetManager where
  textures : List (Nat × Nat)

/-- `TextureView::view` (externs.rs lines 23-31): `Null` resolves to no
handle, `RawSRV(v)` to `Some(v.clone())`. -/
def TextureView.view (self : TextureView) (am : AssetManager) : Option Nat :=
  match self with
  | .Null => none
  | .RawSRV v => some v

/-- `TextureView::view_unchecked` (externs.rs lines 33-35):
`self.view(am).unwrap_or_else(|| transmute(0u64))` — the absent case is
replaced by the null (all-zero-bits) handle. -/
def TextureView.view_unchecked (self : TextureView) (am : AssetManager) : Nat :=
  (self.view am).getD 0

/-- A value stored in an extern field, tagged with its type. -/
inductive FieldValue
  | fF32 (bits : Nat)
  | fU64 (v : Nat)
  | fVec4 (v : Vec4)
  | fMat4 (v : Mat4)
  | fTex (v : TextureView)
deriving DecidableEq

/-- Rust's `T::default()` for each registered field type: `0.0f32`, `0u64`,
`Vec4::ZERO`, `Mat4::IDENTITY` (glam's `Default`), `TextureView::Null`. -/
def FieldType.defaultValue : FieldType → FieldValue
  | .f32 => .fF32 0
  | .u64 => .fU64 0
  | .vec4 => .fVec4 Vec4.zero
  | .mat4 => .fMat4 Mat4.identity
  | .textureView => .fTex .Null

/-- `ExternValue<T>` (externs.rs lines 229-238).  The payload of `Value` is
the tagged `FieldValue`; `InvalidType` carries the registered field's
`"name: type"` description string. -/
inductive ExternValue
  | value (v : FieldValue)
  | unimplemented
  | invalidType (t : String)
  | fieldNotFound
  | externNotFound
  | externNotSet
deriving DecidableEq

/-- One entry of an `extern_struct!` declaration list:
`offset => name: ftype > unimplemented(unimp)` plus the projection reading
that field out of an instance (what `ptr.add(offset_of!(Self, field))`
reads). A declaration without the annotation has `unimp = false`. -/
structure ExternField (S : Type) where
  offset : Nat
  name : String
  ftype : FieldType
  unimp : Bool
  get : S → FieldValue

/-- The body `extern_struct!` generates for `Extern::get_field`
(externs.rs lines 274-295): find the match arm for the exact offset
(declared offsets are distinct, so first-match equals exact-match); if the
field is flagged unimplemented return `Unimplemented` before any type
check; if the requested type's `TypeId` equals the declared field type's,
read the field; otherwise `InvalidType(concat!(name, ": ", type))`. -/
def getFieldImpl {S : Type} (fields : List (ExternField S)) (self : S)
    (T : FieldType) (offset : Nat) : ExternValue :=
  match fields.find? (fun f => f.offset == offset) with
  | none => .fieldNotFound
  | some f =>
    if f.unimp then .unimplemented
    else if T = f.ftype then .value (f.get self)
    else .invalidType (f.name ++ ": " ++ f.ftype.rustName)

/-- `struct View("view")` (externs.rs lines 347-367). -/
structure View where
  resolution_width : Nat
  resolution_height : Nat
  view_miscellaneous : Vec4
  position : Vec4
  unk30 : Vec4
  world_to_camera : Mat4
  camera_to_projective : Mat4
  camera_to_world : Mat4
  projective_to_camera : Mat4
  world_to_projective : Mat4
  projective_to_world : Mat4
  target_pixel_to_world : Mat4
  target_pixel_to_camera : Mat4
  unk240 : Mat4
  combined_tptoc_wtoc : Mat4
  unk2c0 : Mat4
deriving DecidableEq

/-- `View::default()` (the derived `Default`). -/
def View.default : View :=
  ⟨0, 0, Vec4.zero, Vec4.zero, Vec4.zero, Mat4.identity, Mat4.identity,
   Mat4.identity, Mat4.identity, Mat4.identity, Mat4.identity, Mat4.identity,
   Mat4.identity, Mat4.identity, Mat4.identity, Mat4.identity⟩

/-- The declaration list of `struct View("view")`, in source order. -/
def View.fields : List (ExternField View) :=
  [⟨0x00, "resolution_width", .f32, false, fun v => .fF32 v.resolution_width⟩,
   ⟨0x04, "resolution_height", .f32, false, fun v => .fF32 v.resolution_height⟩,
   ⟨0x10, "view_miscellaneous", .vec4, false, fun v => .fVec4 v.view_miscellaneous⟩,
   ⟨0x20, "position", .vec4, false, fun v => .fVec4 v.position⟩,
   ⟨0x30, "unk30", .vec4, false, fun v => .fVec4 v.unk30⟩,
   ⟨0x40, "world_to_camera", .mat4, false, fun v => .fMat4 v.world_to_camera⟩,
   ⟨0x80, "camera_to_projective", .mat4, false, fun v => .fMat4 v.camera_to_projective⟩,
   ⟨0xc0, "camera_to_world", .mat4, false, fun v => .fMat4 v.camera_to_world⟩,
   ⟨0x100, "projective_to_camera", .mat4, false, fun v => .fMat4 v.projective_to_camera⟩,
   ⟨0x140, "world_to_projective", .mat4, false, fun v => .fMat4 v.world_to_projective⟩,
   ⟨0x180, "projective_to_world", .mat4, false, fun v => .fMat4 v.projective_to_world⟩,
   ⟨0x1c0, "target_pixel_to_world", .mat4, false, fun v => .fMat4 v.target_pixel_to_world⟩,
   ⟨0x200, "target_pixel_to_camera", .mat4, false, fun v => .fMat4 v.target_pixel_to_camera⟩,
   ⟨0x240, "unk240", .mat4, true, fun v => .fMat4 v.unk240⟩,
   ⟨0x280, "combined_tptoc_wtoc", .mat4, false, fun v => .fMat4 v.combined_tptoc_wtoc⟩,
   ⟨0x2c0, "unk2c0", .mat4, true, fun v => .fMat4 v.unk2c0⟩]

/-- `<View as Extern>::get_field`. -/
def View.get_field (self : View) (T : FieldType) (offset : Nat) : ExternValue :=
  getFieldImpl View.fields self T offset

/-- `struct Frame("frame")` (externs.rs lines 308-345). -/
structure Frame where
  unk00 : Nat
  unk04 : Nat
  unk0c : Nat
  unk10 : Nat
  unk14 : Nat
  unk1c : Nat
  unk20 : Nat
  unk24 : Nat
  unk28 : Nat
  unk2c : Nat
  unk40 : Nat
  unk70 : Nat
  unk78 : Nat
  unk80 : Nat
  unk88 : Nat
  unk90 : Nat
  unk98 : Nat
  unka0 : Nat
  specular_lobe_lookup : TextureView
  specular_lobe_3d_lookup : TextureView
  specular_tint_lookup : TextureView
  iridescence_lookup : TextureView
  unkd0 : Vec4
  unk150 : Vec4
  unk160 : Vec4
  unk170 : Vec4
  unk180 : Vec4
  unk190 : Nat
  unk194 : Nat
  unk1a0 : Vec4
  unk1b0 : Vec4
  unk1e0 : Nat
  unk1e8 : Nat
  unk1f0 : Nat
deriving DecidableEq

/-- `Frame::default()` (the derived `Default`). -/
def Frame.default : Frame :=
  ⟨0, 0, 0, 0, 0, 0, 0, 0, 0, 0, 0, 0, 0, 0, 0, 0, 0, 0,
   .Null, .Null, .Null, .Null,
   Vec4.zero, Vec4.zero, Vec4.zero, Vec4.zero, Vec4.zero, 0, 0,
   Vec4.zero, Vec4.zero, 0, 0, 0⟩

/-- The declaration list of `struct Frame("frame")`, in source order. -/
def Frame.fields : List (ExternField Frame) :=
  [⟨0x00, "unk00", .f32, false, fun v => .fF32 v.unk00⟩,
   ⟨0x04, "unk04", .f32, false, fun v => .fF32 v.unk04⟩,
   ⟨0x0c, "unk0c", .f32, true, fun v => .fF32 v.unk0c⟩,
   ⟨0x10, "unk10", .f32, true, fun v => .fF32 v.unk10⟩,
   ⟨0x14, "unk14", .f32, true, fun v => .fF32 v.unk14⟩,
   ⟨0x1c, "unk1c", .f32, false, fun v => .fF32 v.unk1c⟩,
   ⟨0x20, "unk20", .f32, true, fun v => .fF32 v.unk20⟩,
   ⟨0x24, "unk24", .f32, true, fun v => .fF32 v.unk24⟩,
   ⟨0x28, "unk28", .f32, true, fun v => .fF32 v.unk28⟩,
   ⟨0x2c, "unk2c", .f32, true, fun v => .fF32 v.unk2c⟩,
   ⟨0x40, "unk40", .f32, true, fun v => .fF32 v.unk40⟩,
   ⟨0x70, "unk70", .f32, true, fun v => .fF32 v.unk70⟩,
   ⟨0x78, "unk78", .u64, true, fun v => .fU64 v.unk78⟩,
   ⟨0x80, "unk80", .u64, true, fun v => .fU64 v.unk80⟩,
   ⟨0x88, "unk88", .u64, true, fun v => .fU64 v.unk88⟩,
   ⟨0x90, "unk90", .u64, true, fun v => .fU64 v.unk90⟩,
   ⟨0x98, "unk98", .u64, true, fun v => .fU64 v.unk98⟩,
   ⟨0xa0, "unka0", .u64, true, fun v => .fU64 v.unka0⟩,
   ⟨0xa8, "specular_lobe_lookup", .textureView, false, fun v => .fTex v.specular_lobe_lookup⟩,
   ⟨0xb0, "specular_lobe_3d_lookup", .textureView, false, fun v => .fTex v.specular_lobe_3d_lookup⟩,
   ⟨0xb8, "specular_tint_lookup", .textureView, false, fun v => .fTex v.specular_tint_lookup⟩,
   ⟨0xc0, "iridescence_lookup", .textureView, false, fun v => .fTex v.iridescence_lookup⟩,
   ⟨0xd0, "unkd0", .vec4, true, fun v => .fVec4 v.unkd0⟩,
   ⟨0x150, "unk150", .vec4, true, fun v => .fVec4 v.unk150⟩,
   ⟨0x160, "unk160", .vec4, true, fun v => .fVec4 v.unk160⟩,
   ⟨0x170, "unk170", .vec4, true, fun v => .fVec4 v.unk170⟩,
   ⟨0x180, "unk180", .vec4, true, fun v => .fVec4 v.unk180⟩,
   ⟨0x190, "unk190", .f32, true, fun v => .fF32 v.unk190⟩,
   ⟨0x194, "unk194", .f32, true, fun v => .fF32 v.unk194⟩,
   ⟨0x1a0, "unk1a0", .vec4, false, fun v => .fVec4 v.unk1a0⟩,
   ⟨0x1b0, "unk1b0", .vec4, false, fun v => .fVec4 v.unk1b0⟩,
   ⟨0x1e0, "unk1e0", .u64, true, fun v => .fU64 v.unk1e0⟩,
   ⟨0x1e8, "unk1e8", .u64, true, fun v => .fU64 v.unk1e8⟩,
   ⟨0x1f0, "unk1f0", .u64, true, fun v => .fU64 v.unk1f0⟩]

/-- `<Frame as Extern>::get_field`. -/
def Frame.get_field (self : Frame) (T : FieldType) (offset : Nat) : ExternValue :=
  getFieldImpl Frame.fields self T offset

/-- `struct Deferred("deferred")` (externs.rs lines 369-388). -/
structure Deferred where
  unk00 : Vec4
  unk10 : Vec4
  unk20 : Vec4
  unk30 : Nat
  deferred_depth : TextureView
  deferred_rt0 : TextureView
  deferred_rt1 : TextureView
  deferred_rt2 : TextureView
  light_diffuse : TextureView
  light_specular : TextureView
  light_ibl_specular : TextureView
  unk78 : TextureView
  unk80 : TextureView
  unk88 : TextureView
  unk90 : TextureView
  unk98 : TextureView
deriving DecidableEq

/-- `Deferred::default()` (the derived `Default`). -/
def Deferred.default : Deferred :=
  ⟨Vec4.zero, Vec4.zero, Vec4.zero, 0,
   .Null, .Null, .Null, .Null, .Null, .Null, .Null, .Null, .Null, .Null,
   .Null, .Null⟩

/-- The declaration list of `struct Deferred("deferred")`, in source order.
Note `0x00 => unk00: Vec4 > unimplemented(false)` in the source — the flag
is `false`, although the repository's own `test_externs` expects the query
at 0x00 to answer `Unimplemented`. -/
def Deferred.fields : List (ExternField Deferred) :=
  [⟨0x00, "unk00", .vec4, false, fun v => .fVec4 v.unk00⟩,
   ⟨0x10, "unk10", .vec4, true, fun v => .fVec4 v.unk10⟩,
   ⟨0x20, "unk20", .vec4, true, fun v => .fVec4 v.unk20⟩,
   ⟨0x30, "unk30", .f32, true, fun v => .fF32 v.unk30⟩,
   ⟨0x38, "deferred_depth", .textureView, false, fun v => .fTex v.deferred_depth⟩,
   ⟨0x48, "deferred_rt0", .textureView, false, fun v => .fTex v.deferred_rt0⟩,
   ⟨0x50, "deferred_rt1", .textureView, false, fun v => .fTex v.deferred_rt1⟩,
   ⟨0x58, "deferred_rt2", .textureView, false, fun v => .fTex v.deferred_rt2⟩,
   ⟨0x60, "light_diffuse", .textureView, false, fun v => .fTex v.light_diffuse⟩,
   ⟨0x68, "light_specular", .textureView, false, fun v => .fTex v.light_specular⟩,
   ⟨0x70, "light_ibl_specular", .textureView, false, fun v => .fTex v.light_ibl_specular⟩,
   ⟨0x78, "unk78", .textureView, true, fun v => .fTex v.unk78⟩,
   ⟨0x80, "unk80", .textureView, true, fun v => .fTex v.unk80⟩,
   ⟨0x88, "unk88", .textureView, true, fun v => .fTex v.unk88⟩,
   ⟨0x90, "unk90", .textureView, true, fun v => .fTex v.unk90⟩,
   ⟨0x98, "unk98", .textureView, true, fun v => .fTex v.unk98⟩]

/-- `<Deferred as Extern>::get_field`. -/
def Deferred.get_field (self : Deferred) (T : FieldType) (offset : Nat) : ExternValue :=
  getFieldImpl Deferred.fields self T offset

/-- `struct DeferredLight("deferred_light")` (externs.rs lines 390-405). -/
structure DeferredLight where
  unk40 : Mat4
  unk80 : Mat4
  unkc0 : Vec4
  unkd0 : Vec4
  unke0 : Vec4
  unkf0 : Vec4
  unk100 : Vec4
  unk110 : Nat
  unk114 : Nat
  unk118 : Nat
  unk11c : Nat
  unk120 : Nat
deriving DecidableEq

/-- `DeferredLight::default()` (the derived `Default`). -/
def DeferredLight.default : DeferredLight :=
  ⟨Mat4.identity, Mat4.identity, Vec4.zero, Vec4.zero, Vec4.zero, Vec4.zero,
   Vec4.zero, 0, 0, 0, 0, 0⟩

/-- The declaration list of `struct DeferredLight("deferred_light")`. -/
def DeferredLight.fields : List (ExternField DeferredLight) :=
  [⟨0x40, "unk40", .mat4, false, fun v => .fMat4 v.unk40⟩,
   ⟨0x80, "unk80", .mat4, false, fun v => .fMat4 v.unk80⟩,
   ⟨0xc0, "unkc0", .vec4, false, fun v => .fVec4 v.unkc0⟩,
   ⟨0xd0, "unkd0", .vec4, false, fun v => .fVec4 v.unkd0⟩,
   ⟨0xe0, "unke0", .vec4, false, fun v => .fVec4 v.unke0⟩,
   ⟨0xf0, "unkf0", .vec4, false, fun v => .fVec4 v.unkf0⟩,
   ⟨0x100, "unk100", .vec4, false, fun v => .fVec4 v.unk100⟩,
   ⟨0x110, "unk110", .f32, false, fun v => .fF32 v.unk110⟩,
   ⟨0x114, "unk114", .f32, false, fun v => .fF32 v.unk114⟩,
   ⟨0x118, "unk118", .f32, false, fun v => .fF32 v.unk118⟩,
   ⟨0x11c, "unk11c", .f32, false, fun v => .fF32 v.unk11c⟩,
   ⟨0x120, "unk120", .f32, false, fun v => .fF32 v.unk120⟩]

/-- `<DeferredLight as Extern>::get_field`. -/
def DeferredLight.get_field (self : DeferredLight) (T : FieldType) (offset : Nat) :
    ExternValue :=
  getFieldImpl DeferredLight.fields self T offset

/-- `struct Transparent("transparent")` (externs.rs lines 407-428). -/
structure Transparent where
  unk00 : TextureView
  unk08 : TextureView
  unk10 : TextureView
  unk18 : TextureView
  unk20 : TextureView
  unk28 : TextureView
  unk30 : TextureView
  unk38 : TextureView
  unk40 : TextureView
  unk48 : TextureView
  unk50 : TextureView
  unk58 : TextureView
  unk60 : TextureView
  unk70 : Vec4
  unk80 : Vec4
  unk90 : Vec4
  unka0 : Vec4
  unkb0 : Vec4
deriving DecidableEq

/-- `Transparent::default()` (the derived `Default`). -/
def Transparent.default : Transparent :=
  ⟨.Null, .Null, .Null, .Null, .Null, .Null, .Null, .Null, .Null, .Null,
   .Null, .Null, .Null, Vec4.zero, Vec4.zero, Vec4.zero, Vec4.zero, Vec4.zero⟩

/-- The declaration list of `struct Transparent("transparent")`. -/
def Transparent.fields : List (ExternField Transparent) :=
  [⟨0x00, "unk00", .textureView, false, fun v => .fTex v.unk00⟩,
   ⟨0x08, "unk08", .textureView, false, fun v => .fTex v.unk08⟩,
   ⟨0x10, "unk10", .textureView, false, fun v => .fTex v.unk10⟩,
   ⟨0x18, "unk18", .textureView, false, fun v => .fTex v.unk18⟩,
   ⟨0x20, "unk20", .textureView, false, fun v => .fTex v.unk20⟩,
   ⟨0x28, "unk28", .textureView, false, fun v => .fTex v.unk28⟩,
   ⟨0x30, "unk30", .textureView, false, fun v => .fTex v.unk30⟩,
   ⟨0x38, "unk38", .textureView, false, fun v => .fTex v.unk38⟩,
   ⟨0x40, "unk40", .textureView, false, fun v => .fTex v.unk40⟩,
   ⟨0x48, "unk48", .textureView, false, fun v => .fTex v.unk48⟩,
   ⟨0x50, "unk50", .textureView, false, fun v => .fTex v.unk50⟩,
   ⟨0x58, "unk58", .textureView, false, fun v => .fTex v.unk58⟩,
   ⟨0x60, "unk60", .textureView, false, fun v => .fTex v.unk60⟩,
   ⟨0x70, "unk70", .vec4, true, fun v => .fVec4 v.unk70⟩,
   ⟨0x80, "unk80", .vec4, true, fun v => .fVec4 v.unk80⟩,
   ⟨0x90, "unk90", .vec4, true, fun v => .fVec4 v.unk90⟩,
   ⟨0xa0, "unka0", .vec4, true, fun v => .fVec4 v.unka0⟩,
   ⟨0xb0, "unkb0", .vec4, true, fun v => .fVec4 v.unkb0⟩]

/-- `<Transparent as Extern>::get_field`. -/
def Transparent.get_field (self : Transparent) (T : FieldType) (offset : Nat) :
    ExternValue :=
  getFieldImpl Transparent.fields self T offset

/-- `struct SimpleGeometry("simple_geometry")` (externs.rs lines 430-434). -/
structure SimpleGeometry where
  transform : Mat4
deriving DecidableEq

/-- `SimpleGeometry::default()`. -/
def SimpleGeometry.default : SimpleGeometry := ⟨Mat4.identity⟩

/-- The declaration list of `struct SimpleGeometry("simple_geometry")`. -/
def SimpleGeometry.fields : List (ExternField SimpleGeometry) :=
  [⟨0x00, "transform", .mat4, false, fun v => .fMat4 v.transform⟩]

/-- `<SimpleGeometry as Extern>::get_field`. -/
def SimpleGeometry.get_field (self : SimpleGeometry) (T : FieldType) (offset : Nat) :
    ExternValue :=
  getFieldImpl SimpleGeometry.fields self T offset

/-- `struct Decal("decal")` (externs.rs lines 436-443). -/
structure Decal where
  unk00 : TextureView
  unk08 : TextureView
  unk10 : Vec4
  unk20 : Vec4
deriving DecidableEq

/-- `Decal::default()`. -/
def Decal.default : Decal := ⟨.Null, .Null, Vec4.zero, Vec4.zero⟩

/-- The declaration list of `struct Decal("decal")`. -/
def Decal.fields : List (ExternField Decal) :=
  [⟨0x00, "unk00", .textureView, true, fun v => .fTex v.unk00⟩,
   ⟨0x08, "unk08", .textureView, false, fun v => .fTex v.unk08⟩,
   ⟨0x10, "unk10", .vec4, true, fun v => .fVec4 v.unk10⟩,
   ⟨0x20, "unk20", .vec4, true, fun v => .fVec4 v.unk20⟩]

/-- `<Decal as Extern>::get_field`. -/
def Decal.get_field (self : Decal) (T : FieldType) (offset : Nat) : ExternValue :=
  getFieldImpl Decal.fields self T offset

/-- `struct RigidModel("rigid_model")` (externs.rs lines 445-453). -/
structure RigidModel where
  mesh_to_world : Mat4
  position_scale : Vec4
  position_offset : Vec4
  texcoord0_scale_offset : Vec4
  dynamic_sh_ao_values : Vec4
deriving DecidableEq

/-- `RigidModel::default()`. -/
def RigidModel.default : RigidModel :=
  ⟨Mat4.identity, Vec4.zero, Vec4.zero, Vec4.zero, Vec4.zero⟩

/-- The declaration list of `struct RigidModel("rigid_model")`. -/
def RigidModel.fields : List (ExternField RigidModel) :=
  [⟨0x00, "mesh_to_world", .mat4, false, fun v => .fMat4 v.mesh_to_world⟩,
   ⟨0x40, "position_scale", .vec4, false, fun v => .fVec4 v.position_scale⟩,
   ⟨0x50, "position_offset", .vec4, false, fun v => .fVec4 v.position_offset⟩,
   ⟨0x60, "texcoord0_scale_offset", .vec4, false, fun v => .fVec4 v.texcoord0_scale_offset⟩,
   ⟨0x70, "dynamic_sh_ao_values", .vec4, false, fun v => .fVec4 v.dynamic_sh_ao_values⟩]

/-- `<RigidModel as Extern>::get_field`. -/
def RigidModel.get_field (self : RigidModel) (T : FieldType) (offset : Nat) :
    ExternValue :=
  getFieldImpl RigidModel.fields self T offset

/-- The IEEE-754 bit pattern of `1920.0f32`. -/
def f32Bits1920 : Nat := 0x44F00000

/-- The IEEE-754 bit pattern of `1080.0f32`. -/
def f32Bits1080 : Nat := 0x44870000

/-- `TfxExtern` (externs.rs lines 474-575): the 97 extern kinds; only
Frame, View, Deferred, DeferredLight, Transparent, RigidModel, Decal and
SimpleGeometry have a registered backing struct in `ExternStorage`. -/
inductive TfxExtern
  | None
  | Frame
  | View
  | Deferred
  | DeferredLight
  | DeferredUberLight
  | DeferredShadow
  | Atmosphere
  | RigidModel
  | EditorMesh
  | EditorMeshMaterial
  | EditorDecal
  | EditorTerrain
  | EditorTerrainPatch
  | EditorTerrainDebug
  | SimpleGeometry
  | UiFont
  | CuiView
  | CuiObject
  | CuiBitmap
  | CuiVideo
  | CuiStandard
  | CuiHud
  | CuiScreenspaceBoxes
  | TextureVisualizer
  | Generic
  | Particle
  | ParticleDebug
  | GearDyeVisualizationMode
  | ScreenArea
  | Mlaa
  | Msaa
  | Hdao
  | DownsampleTextureGeneric
  | DownsampleDepth
  | Ssao
  | VolumetricObscurance
  | Postprocess
  | TextureSet
  | Transparent
  | Vignette
  | GlobalLighting
  | ShadowMask
  | ObjectEffect
  | Decal
  | DecalSetTransform
  | DynamicDecal
  | DecoratorWind
  | TextureCameraLighting
  | VolumeFog
  | Fxaa
  | Smaa
  | Letterbox
  | DepthOfField
  | PostprocessInitialDownsample
  | CopyDepth
  | DisplacementMotionBlur
  | DebugShader
  | MinmaxDepth
  | SdsmBiasAndScale
  | SdsmBiasAndScaleTextures
  | ComputeShadowMapData
  | ComputeLocalLightShadowMapData
  | BilateralUpsample
  | HealthOverlay
  | LightProbeDominantLight
  | LightProbeLightInstance
  | Water
  | LensFlare
  | ScreenShader
  | Scaler
  | GammaControl
  | SpeedtreePlacements
  | Reticle
  | Distortion
  | WaterDebug
  | ScreenAreaInput
  | WaterDepthPrepass
  | OverheadVisibilityMap
  | ParticleCompute
  | CubemapFiltering
  | ParticleFastpath
  | VolumetricsPass
  | TemporalReprojection
  | FxaaCompute
  | VbCopyCompute
  | UberDepth
  | GearDye
  | Cubemaps
  | ShadowBlendWithPrevious
  | DebugShadingOutput
  | Ssao3d
  | WaterDisplacement
  | PatternBlending
  | UiHdrTransform
  | PlayerCenteredCascadedGrid
  | SoftDeform

/-- Rust's derived `Debug` rendering of a `TfxExtern`, as `{ext:?}` prints it. -/
def TfxExtern.debugName : TfxExtern → String
  | .None => "None"
  | .Frame => "Frame"
  | .View => "View"
  | .Deferred => "Deferred"
  | .DeferredLight => "DeferredLight"
  | .DeferredUberLight => "DeferredUberLight"
  | .DeferredShadow => "DeferredShadow"
  | .Atmosphere => "Atmosphere"
  | .RigidModel => "RigidModel"
  | .EditorMesh => "EditorMesh"
  | .EditorMeshMaterial => "EditorMeshMaterial"
  | .EditorDecal => "EditorDecal"
  | .EditorTerrain => "EditorTerrain"
  | .EditorTerrainPatch => "EditorTerrainPatch"
  | .EditorTerrainDebug => "EditorTerrainDebug"
  | .SimpleGeometry => "SimpleGeometry"
  | .UiFont => "UiFont"
  | .CuiView => "CuiView"
  | .CuiObject => "CuiObject"
  | .CuiBitmap => "CuiBitmap"
  | .CuiVideo => "CuiVideo"
  | .CuiStandard => "CuiStandard"
  | .CuiHud => "CuiHud"
  | .CuiScreenspaceBoxes => "CuiScreenspaceBoxes"
  | .TextureVisualizer => "TextureVisualizer"
  | .Generic => "Generic"
  | .Particle => "Particle"
  | .ParticleDebug => "ParticleDebug"
  | .GearDyeVisualizationMode => "GearDyeVisualizationMode"
  | .ScreenArea => "ScreenArea"
  | .Mlaa => "Mlaa"
  | .Msaa => "Msaa"
  | .Hdao => "Hdao"
  | .DownsampleTextureGeneric => "DownsampleTextureGeneric"
  | .DownsampleDepth => "DownsampleDepth"
  | .Ssao => "Ssao"
  | .VolumetricObscurance => "VolumetricObscurance"
  | .Postprocess => "Postprocess"
  | .TextureSet => "TextureSet"
  | .Transparent => "Transparent"
  | .Vignette => "Vignette"
  | .GlobalLighting => "GlobalLighting"
  | .ShadowMask => "ShadowMask"
  | .ObjectEffect => "ObjectEffect"
  | .Decal => "Decal"
  | .DecalSetTransform => "DecalSetTransform"
  | .DynamicDecal => "DynamicDecal"
  | .DecoratorWind => "DecoratorWind"
  | .TextureCameraLighting => "TextureCameraLighting"
  | .VolumeFog => "VolumeFog"
  | .Fxaa => "Fxaa"
  | .Smaa => "Smaa"
  | .Letterbox => "Letterbox"
  | .DepthOfField => "DepthOfField"
  | .PostprocessInitialDownsample => "PostprocessInitialDownsample"
  | .CopyDepth => "CopyDepth"
  | .DisplacementMotionBlur => "DisplacementMotionBlur"
  | .DebugShader => "DebugShader"
  | .MinmaxDepth => "MinmaxDepth"
  | .SdsmBiasAndScale => "SdsmBiasAndScale"
  | .SdsmBiasAndScaleTextures => "SdsmBiasAndScaleTextures"
  | .ComputeShadowMapData => "ComputeShadowMapData"
  | .ComputeLocalLightShadowMapData => "ComputeLocalLightShadowMapData"
  | .BilateralUpsample => "BilateralUpsample"
  | .HealthOverlay => "HealthOverlay"
  | .LightProbeDominantLight => "LightProbeDominantLight"
  | .LightProbeLightInstance => "LightProbeLightInstance"
  | .Water => "Water"
  | .LensFlare => "LensFlare"
  | .ScreenShader => "ScreenShader"
  | .Scaler => "Scaler"
  | .GammaControl => "GammaControl"
  | .SpeedtreePlacements => "SpeedtreePlacements"
  | .Reticle => "Reticle"
  | .Distortion => "Distortion"
  | .WaterDebug => "WaterDebug"
  | .ScreenAreaInput => "ScreenAreaInput"
  | .WaterDepthPrepass => "WaterDepthPrepass"
  | .OverheadVisibilityMap => "OverheadVisibilityMap"
  | .ParticleCompute => "ParticleCompute"
  | .CubemapFiltering => "CubemapFiltering"
  | .ParticleFastpath => "ParticleFastpath"
  | .VolumetricsPass => "VolumetricsPass"
  | .TemporalReprojection => "TemporalReprojection"
  | .FxaaCompute => "FxaaCompute"
  | .VbCopyCompute => "VbCopyCompute"
  | .UberDepth => "UberDepth"
  | .GearDye => "GearDye"
  | .Cubemaps => "Cubemaps"
  | .ShadowBlendWithPrevious => "ShadowBlendWithPrevious"
  | .DebugShadingOutput => "DebugShadingOutput"
  | .Ssao3d => "Ssao3d"
  | .WaterDisplacement => "WaterDisplacement"
  | .PatternBlending => "PatternBlending"
  | .UiHdrTransform => "UiHdrTransform"
  | .PlayerCenteredCascadedGrid => "PlayerCenteredCascadedGrid"
  | .SoftDeform => "SoftDeform"

/-- `TfxExpressionErrorType` (externs.rs lines 583-587). -/
inductive TfxExpressionErrorType
  | Unimplemented (field_offset : Nat)
  | InvalidType (t : String)
  | ExternNotSet (t : String)
deriving DecidableEq

/-- 2^64, the modulus of Rust's 64-bit `usize`: arithmetic on
`repeat_count` wraps at this bound (release-mode semantics of `+= 1`). -/
def usizeSize : Nat := 2 ^ 64

/-- `TfxExpressionError` (externs.rs lines 577-581).  `repeat_count` is a
`usize`: its value always lies below `usizeSize`, every increment being
taken modulo 2^64. -/
structure TfxExpressionError where
  error_type : TfxExpressionErrorType
  repeat_count : Nat
deriving DecidableEq

/-- The diagnostic map `FxHashMap<String, TfxExpressionError>` behind the
`RwLock` in `ExternStorage::errors`, modelled as an association list with at
most one entry per key. -/
def ErrorMap : Type := List (String × TfxExpressionError)

/-- Hash-map lookup. -/
def ErrorMap.lookup (m : ErrorMap) (key : String) : Option TfxExpressionError :=
  match m with
  | [] => none
  | (k, e) :: rest => if k = key then some e else ErrorMap.lookup rest key

/-- How many entries of the list carry `key` (1 at most once the map is
built only through `ErrorMap.bump`). -/
def ErrorMap.countKey (m : ErrorMap) (key : String) : Nat :=
  match m with
  | [] => 0
  | (k, _) :: rest =>
    (if k = key then 1 else 0) + ErrorMap.countKey rest key

/-- `self.errors.write().entry(key).or_insert_with(|| TfxExpressionError {
error_type, repeat_count: 0 }).repeat_count += 1` — the one mutation
`ExternStorage::get_value` performs on the diagnostic map: insert the record
with count 0 if the key is absent, then increment its count.  The increment
is `usize` arithmetic: it wraps at 2^64. -/
def ErrorMap.bump (m : ErrorMap) (key : String) (et : TfxExpressionErrorType) :
    ErrorMap :=
  match m with
  | [] => [(key, ⟨et, (0 + 1) % usizeSize⟩)]
  | (k, e) :: rest =>
    if k = key then (k, ⟨e.error_type, (e.repeat_count + 1) % usizeSize⟩) :: rest
    else (k, e) :: ErrorMap.bump rest key et

/-- `ExternStorage` (externs.rs lines 60-72): at most one live instance per
registered extern kind, plus the diagnostic error map. -/
structure ExternStorage where
  frame : Option Frame
  view : Option View
  deferred : Option Deferred
  deferred_light : Option DeferredLight
  transparent : Option Transparent
  rigid_model : Option RigidModel
  decal : Option Decal
  simple_geometry : Option SimpleGeometry
  errors : ErrorMap

/-- `ExternStorage::default()`: no instance populated, no errors. -/
def ExternStorage.empty : ExternStorage :=
  ⟨none, none, none, none, none, none, none, none, []⟩

/-- `ExternStorage::get_value_inner` (externs.rs lines 172-198): the
`extern_lookup!` macro maps the eight registered kinds to their `Option`
slot (`ExternNotSet` when empty, else that struct's `get_field`), and every
other kind to `ExternNotFound`. -/
def ExternStorage.get_value_inner (s : ExternStorage) (ext : TfxExtern)
    (T : FieldType) (offset : Nat) : ExternValue :=
  match ext with
  | .Frame => (s.frame.map (fun v => v.get_field T offset)).getD .externNotSet
  | .View => (s.view.map (fun v => v.get_field T offset)).getD .externNotSet
  | .Deferred => (s.deferred.map (fun v => v.get_field T offset)).getD .externNotSet
  | .DeferredLight =>
    (s.deferred_light.map (fun v => v.get_field T offset)).getD .externNotSet
  | .Transparent =>
    (s.transparent.map (fun v => v.get_field T offset)).getD .externNotSet
  | .RigidModel =>
    (s.rigid_model.map (fun v => v.get_field T offset)).getD .externNotSet
  | .Decal => (s.decal.map (fun v => v.get_field T offset)).getD .externNotSet
  | .SimpleGeometry =>
    (s.simple_geometry.map (fun v => v.get_field T offset)).getD .externNotSet
  | _ => .externNotFound

/-- The diagnostic key `get_value` renders for an `Unimplemented` outcome:
`format!("Extern field @ 0x{offset:X} for {ext:?} is unimplemented (type {})",
short_type_name::<T>())`. -/
def keyUnimplemented (ext : TfxExtern) (T : FieldType) (offset : Nat) : String :=
  "Extern field @ 0x" ++ toHexUpper offset ++ " for " ++ ext.debugName ++
    " is unimplemented (type " ++ T.rustName ++ ")"

/-- The diagnostic key for an `InvalidType` outcome. -/
def keyInvalidType (ext : TfxExtern) (T : FieldType) (offset : Nat) : String :=
  "Extern field @ 0x" ++ toHexUpper offset ++ " for " ++ ext.debugName ++
    " has invalid type (expected " ++ T.rustName ++ ")"

/-- The diagnostic key for a `FieldNotFound` outcome. -/
def keyFieldNotFound (ext : TfxExtern) (T : FieldType) (offset : Nat) : String :=
  "Extern field @ 0x" ++ toHexUpper offset ++ " for " ++ ext.debugName ++
    " not found (type " ++ T.rustName ++ ")"

/-- The diagnostic key for an `ExternNotFound` outcome:
`format!("Extern {ext:?} not found")`. -/
def keyExternNotFound (ext : TfxExtern) : String :=
  "Extern " ++ ext.debugName ++ " not found"

/-- The diagnostic key for an `ExternNotSet` outcome. -/
def keyExternNotSet (ext : TfxExtern) : String :=
  "Extern " ++ ext.debugName ++ " not set"

/-- `ExternStorage::get_value` (externs.rs lines 83-170).  Each failing arm
records its diagnostic (key, initial `error_type`) with
`entry(..).or_insert_with(..).repeat_count += 1` and returns `Err`; the
`Value` arm records nothing.  The `FieldNotFound` arm stores
`TfxExpressionErrorType::Unimplemented { field_offset: offset }` and the
`ExternNotFound` arm stores `ExternNotSet("Extern not found")`, exactly as
the source does.  Interior mutability of `errors` is modelled by returning
the updated storage next to the `Result`. -/
def ExternStorage.get_value (s : ExternStorage) (ext : TfxExtern)
    (T : FieldType) (offset : Nat) : Except String FieldValue × ExternStorage :=
  match s.get_value_inner ext T offset with
  | .value v => (.ok v, s)
  | .unimplemented =>
    let e2 := s.errors.bump (keyUnimplemented ext T offset) (.Unimplemented offset)
    (.error ("Unimplemented field: " ++ ext.debugName ++ "@0x" ++ toHexUpper offset),
     { s with errors := e2 })
  | .invalidType t =>
    let e2 := s.errors.bump (keyInvalidType ext T offset) (.InvalidType t)
    (.error ("Invalid type: " ++ ext.debugName ++ "@0x" ++ toHexUpper offset),
     { s with errors := e2 })
  | .fieldNotFound =>
    let e2 := s.errors.bump (keyFieldNotFound ext T offset) (.Unimplemented offset)
    (.error ("Field not found: " ++ ext.debugName ++ "@0x" ++ toHexUpper offset),
     { s with errors := e2 })
  | .externNotFound =>
    let e2 := s.errors.bump (keyExternNotFound ext) (.ExternNotSet "Extern not found")
    (.error ("Extern not found: " ++ ext.debugName), { s with errors := e2 })
  | .externNotSet =>
    let e2 := s.errors.bump (keyExternNotSet ext) (.ExternNotSet "Extern not set")
    (.error ("Extern not set: " ++ ext.debugName), { s with errors := e2 })

/-- `ExternStorage::get_value_or_default` (externs.rs lines 75-81):
`self.get_value(ext, offset).unwrap_or_default()`, for `T: Default`. -/
def ExternStorage.get_value_or_default (s : ExternStorage) (ext : TfxExtern)
    (T : FieldType) (offset : Nat) : FieldValue × ExternStorage :=
  match s.get_value ext T offset with
  | (.ok v, s2) => (v, s2)
  | (.error _, s2) => (T.defaultValue, s2)

/-! ## The technique loader (loaders/technique.rs) -/

/-- Modelled from the spec: `TfxShaderStage` lives in the external
`alkahest-data` crate (not part of this excerpt); per the glossary a
technique bundles vertex/geometry/pixel/compute stages. -/
inductive TfxShaderStage
  | Vertex
  | Geometry
  | Pixel
  | Compute
deriving DecidableEq

/-- Modelled from the spec: the decoded bytecode instructions
(`tfx/bytecode/opcodes.rs` is not part of this excerpt).  §3 "a decoded
opcode plus immediate operands" and §4.4's opcode families: constant-pool
push, extern field fetch, arithmetic, output-write. -/
inductive TfxBytecodeOp
  | PushConstant (idx : Nat)
  | PushExternInput (ext : Nat) (offset : Nat)
  | Add
  | Multiply
  | PopOutput (slot : Nat)
deriving DecidableEq

/-- Modelled from the spec: `TfxBytecodeOp::parse_all`
(`tfx/bytecode/opcodes.rs`, not part of this excerpt).  §4.3: "any byte
sequence either yields a complete valid instruction sequence or a decode
failure — partial/truncated decodes are always reported as failure".  Each
instruction is one opcode byte followed by its immediate operand bytes; an
unknown opcode byte or a stream that ends inside an instruction is a decode
failure. -/
def TfxBytecodeOp.parse_all : List Nat → Except String (List TfxBytecodeOp)
  | [] => .ok []
  | 0 :: idx :: rest =>
    (TfxBytecodeOp.parse_all rest).map (fun ops => .PushConstant idx :: ops)
  | 1 :: e :: o :: rest =>
    (TfxBytecodeOp.parse_all rest).map (fun ops => .PushExternInput e o :: ops)
  | 2 :: rest => (TfxBytecodeOp.parse_all rest).map (fun ops => .Add :: ops)
  | 3 :: rest => (TfxBytecodeOp.parse_all rest).map (fun ops => .Multiply :: ops)
  | 4 :: slot :: rest =>
    (TfxBytecodeOp.parse_all rest).map (fun ops => .PopOutput slot :: ops)
  | b :: _ => .error ("malformed TFX bytecode at opcode byte " ++ toHexUpper b)

/-- `TfxBytecodeInterpreter` holds the decoded opcode sequence (its
evaluator is outside this excerpt). -/
structure TfxBytecodeInterpreter where
  opcodes : List TfxBytecodeOp
deriving DecidableEq

/-- A compiled GPU shader module; opaque handle. -/
structure ShaderModule where
  handle : Nat
deriving DecidableEq

/-- Modelled from the spec: `STechniqueShader` (`alkahest-data`, not part of
this excerpt) as `load_technique_stage` consumes it: the shader tag
(`None`-able), the optional constant-buffer tag, the inline constant data
`unk50`, the raw bytecode bytes, the sampler tags.  Tag hashes are opaque
`Nat`s. -/
structure STechniqueShader where
  shader : Option Nat
  constant_buffer : Option Nat
  unk50 : List Nat
  bytecode : List Nat
  samplers : List Nat
deriving DecidableEq

/-- `TechniqueStage` as `load_technique_stage` builds it (technique.rs
lines 94-105); `textures` starts empty. -/
structure TechniqueStage where
  stage : TfxShaderStage
  shader : STechniqueShader
  samplers : List (Option Nat)
  textures : List Nat
  shader_module : ShaderModule
  cbuffer : Option (List Nat)
  bytecode : Option TfxBytecodeInterpreter
deriving DecidableEq

/-- The external collaborators of the loader (`SharedGpuContext`, the global
`package_manager()`, `ShaderModule::load`, `load_sampler`,
`ConstantBufferCached::create_array_init`), collapsed into one record of
oracles.  `readTagData` stands for the `get_entry(..).reference` +
`read_tag(..)` pair, which the source unwraps (failure there is a panic,
outside the error propagation under study). -/
structure GpuContext where
  readTagData : Nat → List Nat
  loadShaderModule : Option Nat → Except String ShaderModule
  loadSampler : Nat → Except String Nat

/-- `STechnique`'s four stage shaders (the other fields are irrelevant to
the loader's control flow). -/
structure STechnique where
  shader_vertex : STechniqueShader
  shader_geometry : STechniqueShader
  shader_pixel : STechniqueShader
  shader_compute : STechniqueShader
deriving DecidableEq

/-- `Technique` (loaders build one per technique tag). -/
structure Technique where
  stage_vertex : Option TechniqueStage
  stage_geometry : Option TechniqueStage
  stage_pixel : Option TechniqueStage
  stage_compute : Option TechniqueStage
  tech : STechnique
deriving DecidableEq

/-- `load_technique_stage` (technique.rs lines 50-112).  The bytecode arm
(lines 83-92) is the one under study: `TfxBytecodeOp::parse_all` failure is
logged and replaced by `None`, it does not become an `Err`.  Only
`ShaderModule::load` failure propagates (`?`). -/
def load_technique_stage (gctx : GpuContext) (shader : STechniqueShader)
    (stage : TfxShaderStage) : Except String (Option TechniqueStage) :=
  if shader.shader.isNone then .ok none
  else
    let cbuffer : Option (List Nat) :=
      match shader.constant_buffer with
      | some cb => some (gctx.readTagData cb)
      | none => if shader.unk50.isEmpty then none else some shader.unk50
    let bytecode : Option TfxBytecodeInterpreter :=
      match TfxBytecodeOp.parse_all shader.bytecode with
      | .ok opcodes => some ⟨opcodes⟩
      | .error _ => none
    match gctx.loadShaderModule shader.shader with
    | .error e => .error ("Failed to load shader module: " ++ e)
    | .ok m =>
      .ok (some
        { stage := stage
          shader := shader
          samplers := shader.samplers.map (fun h => (gctx.loadSampler h).toOption)
          textures := []
          shader_module := m
          cbuffer := cbuffer
          bytecode := bytecode })

/-- `load_technique` (technique.rs lines 22-48): load the four stages with
`?`, then assemble the `Technique`.  (Reading the `STechnique` header out of
the package store is abstracted: the caller passes it.) -/
def load_technique (gctx : GpuContext) (stech : STechnique) :
    Except String Technique :=
  match load_technique_stage gctx stech.shader_vertex .Vertex with
  | .error e => .error e
  | .ok sv =>
    match load_technique_stage gctx stech.shader_geometry .Geometry with
    | .error e => .error e
    | .ok sg =>
      match load_technique_stage gctx stech.shader_pixel .Pixel with
      | .error e => .error e
      | .ok sp =>
        match load_technique_stage gctx stech.shader_compute .Compute with
        | .error e => .error e
        | .ok sc => .ok ⟨sv, sg, sp, sc, stech⟩

/-! ## Lemmas about the generated field lookup -/

lemma find?_offset_of_mem {S : Type} {l : List (ExternField S)} {f : ExternField S}
    (hnd : (l.map (fun g => g.offset)).Nodup) (hf : f ∈ l) :
    l.find? (fun g => g.offset == f.offset) = some f := by
  induction l with
  | nil => cases hf
  | cons a t ih =>
    rw [List.map_cons, List.nodup_cons] at hnd
    rcases List.mem_cons.mp hf with h | h
    · subst h
      simp [List.find?_cons]
    · have ha : (a.offset == f.offset) = false := by
        simp only [beq_eq_false_iff_ne, ne_eq]
        intro he
        exact hnd.1 (he ▸ List.mem_map_of_mem (fun g => g.offset) h)
      simpa [List.find?_cons, ha] using ih hnd.2 h

lemma getFieldImpl_value {S : Type} {l : List (ExternField S)}
    (hnd : (l.map (fun g => g.offset)).Nodup) (self : S) (f : ExternField S)
    (hf : f ∈ l) (hu : f.unimp = false) :
    getFieldImpl l self f.ftype f.offset = .value (f.get self) := by
  simp [getFieldImpl, find?_offset_of_mem hnd hf, hu]

lemma getFieldImpl_unimplemented {S : Type} {l : List (ExternField S)}
    (hnd : (l.map (fun g => g.offset)).Nodup) (self : S) (f : ExternField S)
    (hf : f ∈ l) (hu : f.unimp = true) (T : FieldType) :
    getFieldImpl l self T f.offset = .unimplemented := by
  simp [getFieldImpl, find?_offset_of_mem hnd hf, hu]

lemma getFieldImpl_invalidType {S : Type} {l : List (ExternField S)}
    (hnd : (l.map (fun g => g.offset)).Nodup) (self : S) (f : ExternField S)
    (hf : f ∈ l) (hu : f.unimp = false) (T : FieldType) (hT : T ≠ f.ftype) :
    getFieldImpl l self T f.offset =
      .invalidType (f.name ++ ": " ++ f.ftype.rustName) := by
  simp [getFieldImpl, find?_offset_of_mem hnd hf, hu, hT]

lemma getFieldImpl_fieldNotFound {S : Type} (l : List (ExternField S)) (self : S)
    (T : FieldType) (off : Nat) (h : ∀ f ∈ l, f.offset ≠ off) :
    getFieldImpl l self T off = .fieldNotFound := by
  have hn : l.find? (fun g => g.offset == off) = none :=
    List.find?_eq_none.mpr (by simpa using h)
  simp [getFieldImpl, hn]

lemma frame_fields_offsets_nodup :
    (Frame.fields.map (fun g => g.offset)).Nodup := by decide

lemma view_fields_offsets_nodup :
    (View.fields.map (fun g => g.offset)).Nodup := by decide

lemma deferred_fields_offsets_nodup :
    (Deferred.fields.map (fun g => g.offset)).Nodup := by decide

lemma deferredLight_fields_offsets_nodup :
    (DeferredLight.fields.map (fun g => g.offset)).Nodup := by decide

lemma transparent_fields_offsets_nodup :
    (Transparent.fields.map (fun g => g.offset)).Nodup := by decide

lemma simpleGeometry_fields_offsets_nodup :
    (SimpleGeometry.fields.map (fun g => g.offset)).Nodup := by decide

lemma decal_fields_offsets_nodup :
    (Decal.fields.map (fun g => g.offset)).Nodup := by decide

lemma rigidModel_fields_offsets_nodup :
    (RigidModel.fields.map (fun g => g.offset)).Nodup := by decide

/-! ## Claim theorems -/

/-- C1: for every registered extern struct instance and every registered
(offset, field) pair whose field is not flagged unimplemented, querying that
offset with the exact registered field type returns `Value` carrying the
exact bits stored in the instance's field; in particular a `View` with
`resolution_width = 1920.0` (bits 0x44F00000) at 0x00 and
`resolution_height = 1080.0` (bits 0x44870000) at 0x04 answers
`Value(1920.0)` at 0x00 and `Value(1080.0)` at 0x04 when queried as f32. -/
theorem c1_matching_type_returns_exact_stored_bits :
    (∀ (v : Frame) (f : ExternField Frame), f ∈ Frame.fields → f.unimp = false →
      Frame.get_field v f.ftype f.offset = .value (f.get v)) ∧
    (∀ (v : View) (f : ExternField View), f ∈ View.fields → f.unimp = false →
      View.get_field v f.ftype f.offset = .value (f.get v)) ∧
    (∀ (v : Deferred) (f : ExternField Deferred), f ∈ Deferred.fields →
      f.unimp = false → Deferred.get_field v f.ftype f.offset = .value (f.get v)) ∧
    (∀ (v : DeferredLight) (f : ExternField DeferredLight),
      f ∈ DeferredLight.fields → f.unimp = false →
      DeferredLight.get_field v f.ftype f.offset = .value (f.get v)) ∧
    (∀ (v : Transparent) (f : ExternField Transparent), f ∈ Transparent.fields →
      f.unimp = false → Transparent.get_field v f.ftype f.offset = .value (f.get v)) ∧
    (∀ (v : RigidModel) (f : ExternField RigidModel), f ∈ RigidModel.fields →
      f.unimp = false → RigidModel.get_field v f.ftype f.offset = .value (f.get v)) ∧
    (∀ (v : Decal) (f : ExternField Decal), f ∈ Decal.fields → f.unimp = false →
      Decal.get_field v f.ftype f.offset = .value (f.get v)) ∧
    (∀ (v : SimpleGeometry) (f : ExternField SimpleGeometry),
      f ∈ SimpleGeometry.fields → f.unimp = false →
      SimpleGeometry.get_field v f.ftype f.offset = .value (f.get v)) ∧
    (∀ w h : Nat,
      View.get_field
        { View.default with resolution_width := w, resolution_height := h }
        .f32 0x00 = .value (.fF32 w) ∧
      View.get_field
        { View.default with resolution_width := w, resolution_height := h }
        .f32 0x04 = .value (.fF32 h)) ∧
    (View.get_field
      { View.default with
          resolution_width := f32Bits1920, resolution_height := f32Bits1080 }
      .f32 0x00 = .value (.fF32 f32Bits1920) ∧
     View.get_field
      { View.default with
          resolution_width := f32Bits1920, resolution_height := f32Bits1080 }
      .f32 0x04 = .value (.fF32 f32Bits1080)) := by
  refine ⟨?_, ?_, ?_, ?_, ?_, ?_, ?_, ?_, ?_, ?_⟩
  · exact fun v f hf hu => getFieldImpl_value frame_fields_offsets_nodup v f hf hu
  · exact fun v f hf hu => getFieldImpl_value view_fields_offsets_nodup v f hf hu
  · exact fun v f hf hu => getFieldImpl_value deferred_fields_offsets_nodup v f hf hu
  · exact fun v f hf hu =>
      getFieldImpl_value deferredLight_fields_offsets_nodup v f hf hu
  · exact fun v f hf hu =>
      getFieldImpl_value transparent_fields_offsets_nodup v f hf hu
  · exact fun v f hf hu =>
      getFieldImpl_value rigidModel_fields_offsets_nodup v f hf hu
  · exact fun v f hf hu => getFieldImpl_value decal_fields_offsets_nodup v f hf hu
  · exact fun v f hf hu =>
      getFieldImpl_value simpleGeometry_fields_offsets_nodup v f hf hu
  · exact fun w h => ⟨rfl, rfl⟩
  · exact ⟨rfl, rfl⟩

/-- C1 witness: the View resolution scenario at concrete inputs, through the
general Frame/View conjuncts of the claim theorem. -/
theorem c1_matching_type_witness :
    View.get_field
      { View.default with
          resolution_width := f32Bits1920, resolution_height := f32Bits1080 }
      .f32 0x00 = .value (.fF32 f32Bits1920) :=
  c1_matching_type_returns_exact_stored_bits.2.1
    { View.default with
        resolution_width := f32Bits1920, resolution_height := f32Bits1080 }
    ⟨0x00, "resolution_width", .f32, false, fun v => .fF32 v.resolution_width⟩
    (List.Mem.head _) rfl

/-- C2: a field flagged unimplemented answers `Unimplemented` for every
requested type, including the registered one, on every instance (the flag is
checked before the type check, so it takes priority over both `Value` and
`InvalidType`), for each of the eight registered structs. -/
theorem c2_unimplemented_flag_wins_for_every_type :
    (∀ (v : Frame) (T : FieldType) (f : ExternField Frame), f ∈ Frame.fields →
      f.unimp = true → Frame.get_field v T f.offset = .unimplemented) ∧
    (∀ (v : View) (T : FieldType) (f : ExternField View), f ∈ View.fields →
      f.unimp = true → View.get_field v T f.offset = .unimplemented) ∧
    (∀ (v : Deferred) (T : FieldType) (f : ExternField Deferred),
      f ∈ Deferred.fields → f.unimp = true →
      Deferred.get_field v T f.offset = .unimplemented) ∧
    (∀ (v : DeferredLight) (T : FieldType) (f : ExternField DeferredLight),
      f ∈ DeferredLight.fields → f.unimp = true →
      DeferredLight.get_field v T f.offset = .unimplemented) ∧
    (∀ (v : Transparent) (T : FieldType) (f : ExternField Transparent),
      f ∈ Transparent.fields → f.unimp = true →
      Transparent.get_field v T f.offset = .unimplemented) ∧
    (∀ (v : RigidModel) (T : FieldType) (f : ExternField RigidModel),
      f ∈ RigidModel.fields → f.unimp = true →
      RigidModel.get_field v T f.offset = .unimplemented) ∧
    (∀ (v : Decal) (T : FieldType) (f : ExternField Decal), f ∈ Decal.fields →
      f.unimp = true → Decal.get_field v T f.offset = .unimplemented) ∧
    (∀ (v : SimpleGeometry) (T : FieldType) (f : ExternField SimpleGeometry),
      f ∈ SimpleGeometry.fields → f.unimp = true →
      SimpleGeometry.get_field v T f.offset = .unimplemented) := by
  refine ⟨?_, ?_, ?_, ?_, ?_, ?_, ?_, ?_⟩
  · exact fun v T f hf hu =>
      getFieldImpl_unimplemented frame_fields_offsets_nodup v f hf hu T
  · exact fun v T f hf hu =>
      getFieldImpl_unimplemented view_fields_offsets_nodup v f hf hu T
  · exact fun v T f hf hu =>
      getFieldImpl_unimplemented deferred_fields_offsets_nodup v f hf hu T
  · exact fun v T f hf hu =>
      getFieldImpl_unimplemented deferredLight_fields_offsets_nodup v f hf hu T
  · exact fun v T f hf hu =>
      getFieldImpl_unimplemented transparent_fields_offsets_nodup v f hf hu T
  · exact fun v T f hf hu =>
      getFieldImpl_unimplemented rigidModel_fields_offsets_nodup v f hf hu T
  · exact fun v T f hf hu =>
      getFieldImpl_unimplemented decal_fields_offsets_nodup v f hf hu T
  · exact fun v T f hf hu =>
      getFieldImpl_unimplemented simpleGeometry_fields_offsets_nodup v f hf hu T

/-- C2 witness: Frame's unimplemented f32 field at 0x0c answers
`Unimplemented` even for the mismatched requested type Vec4 (and backing
storage is present: the instance is fully populated). -/
theorem c2_unimplemented_flag_witness :
    Frame.get_field Frame.default .vec4 0x0c = .unimplemented :=
  c2_unimplemented_flag_wins_for_every_type.1 Frame.default .vec4
    ⟨0x0c, "unk0c", .f32, true, fun v => .fF32 v.unk0c⟩
    (List.Mem.tail _ (List.Mem.tail _ (List.Mem.head _))) rfl

/-- C4: at a registered offset whose field is not flagged unimplemented, a
requested type different from the registered field type answers
`InvalidType` carrying the registered field's name and type string — never a
`Value` reinterpreting the stored bytes — for each of the eight registered
structs. -/
theorem c4_type_mismatch_answers_invalid_type :
    (∀ (v : Frame) (T : FieldType) (f : ExternField Frame), f ∈ Frame.fields →
      f.unimp = false → T ≠ f.ftype →
      Frame.get_field v T f.offset = .invalidType (f.name ++ ": " ++ f.ftype.rustName)) ∧
    (∀ (v : View) (T : FieldType) (f : ExternField View), f ∈ View.fields →
      f.unimp = false → T ≠ f.ftype →
      View.get_field v T f.offset = .invalidType (f.name ++ ": " ++ f.ftype.rustName)) ∧
    (∀ (v : Deferred) (T : FieldType) (f : ExternField Deferred),
      f ∈ Deferred.fields → f.unimp = false → T ≠ f.ftype →
      Deferred.get_field v T f.offset = .invalidType (f.name ++ ": " ++ f.ftype.rustName)) ∧
    (∀ (v : DeferredLight) (T : FieldType) (f : ExternField DeferredLight),
      f ∈ DeferredLight.fields → f.unimp = false → T ≠ f.ftype →
      DeferredLight.get_field v T f.offset =
        .invalidType (f.name ++ ": " ++ f.ftype.rustName)) ∧
    (∀ (v : Transparent) (T : FieldType) (f : ExternField Transparent),
      f ∈ Transparent.fields → f.unimp = false → T ≠ f.ftype →
      Transparent.get_field v T f.offset =
        .invalidType (f.name ++ ": " ++ f.ftype.rustName)) ∧
    (∀ (v : RigidModel) (T : FieldType) (f : ExternField RigidModel),
      f ∈ RigidModel.fields → f.unimp = false → T ≠ f.ftype →
      RigidModel.get_field v T f.offset =
        .invalidType (f.name ++ ": " ++ f.ftype.rustName)) ∧
    (∀ (v : Decal) (T : FieldType) (f : ExternField Decal), f ∈ Decal.fields →
      f.unimp = false → T ≠ f.ftype →
      Decal.get_field v T f.offset = .invalidType (f.name ++ ": " ++ f.ftype.rustName)) ∧
    (∀ (v : SimpleGeometry) (T : FieldType) (f : ExternField SimpleGeometry),
      f ∈ SimpleGeometry.fields → f.unimp = false → T ≠ f.ftype →
      SimpleGeometry.get_field v T f.offset =
        .invalidType (f.name ++ ": " ++ f.ftype.rustName)) := by
  refine ⟨?_, ?_, ?_, ?_, ?_, ?_, ?_, ?_⟩
  · exact fun v T f hf hu hT =>
      getFieldImpl_invalidType frame_fields_offsets_nodup v f hf hu T hT
  · exact fun v T f hf hu hT =>
      getFieldImpl_invalidType view_fields_offsets_nodup v f hf hu T hT
  · exact fun v T f hf hu hT =>
      getFieldImpl_invalidType deferred_fields_offsets_nodup v f hf hu T hT
  · exact fun v T f hf hu hT =>
      getFieldImpl_invalidType deferredLight_fields_offsets_nodup v f hf hu T hT
  · exact fun v T f hf hu hT =>
      getFieldImpl_invalidType transparent_fields_offsets_nodup v f hf hu T hT
  · exact fun v T f hf hu hT =>
      getFieldImpl_invalidType rigidModel_fields_offsets_nodup v f hf hu T hT
  · exact fun v T f hf hu hT =>
      getFieldImpl_invalidType decal_fields_offsets_nodup v f hf hu T hT
  · exact fun v T f hf hu hT =>
      getFieldImpl_invalidType simpleGeometry_fields_offsets_nodup v f hf hu T hT

/-- C4 witness: querying View's 0x00 (`resolution_width: f32`, populated
with the 1920.0 bit pattern) as Vec4 answers `InvalidType` naming the
registered field, not a reinterpreted value. -/
theorem c4_type_mismatch_witness :
    View.get_field { View.default with resolution_width := f32Bits1920 }
      .vec4 0x00 = .invalidType "resolution_width: f32" :=
  c4_type_mismatch_answers_invalid_type.2.1
    { View.default with resolution_width := f32Bits1920 } .vec4
    ⟨0x00, "resolution_width", .f32, false, fun v => .fF32 v.resolution_width⟩
    (List.Mem.head _) rfl (by decide)

/-- The `Deferred` instance of the repository's own `test_externs`
(externs.rs lines 455-463): `unk00 = Vec4::new(1.0, 2.0, 3.0, 4.0)`, as
IEEE-754 bit patterns, the other fields defaulted. -/
def deferredTestInstance : Deferred :=
  { Deferred.default with
      unk00 := ⟨0x3F800000, 0x40000000, 0x40400000, 0x40800000⟩ }

/-- C3 (code bug): the claim — and the repository's own `test_externs`,
which asserts `deferred.get_field::<Vec4>(0x00) == ExternValue::Unimplemented`
— treats Deferred offset 0x00 as flagged unimplemented, but the declaration
reads `0x00 => unk00: Vec4 > unimplemented(false)`, so `get_field` takes the
implemented path and returns `Value` of the populated vector, never
`Unimplemented`. -/
theorem c3_deferred_0x00_value_contradicts_own_test :
    Deferred.get_field deferredTestInstance .vec4 0x00 =
      .value (.fVec4 ⟨0x3F800000, 0x40000000, 0x40400000, 0x40800000⟩) ∧
    Deferred.get_field deferredTestInstance .vec4 0x00 ≠ .unimplemented :=
  ⟨rfl, by decide⟩

/-- C9: `TextureView::view` answers `None` exactly on the `Null` variant and
`Some(handle)` exactly on `RawSRV(handle)`; `view_unchecked` substitutes the
zero/null sentinel handle for the absent case and the held handle
otherwise. -/
theorem c9_textureview_null_never_yields_handle :
    ∀ (am : AssetManager) (tv : TextureView),
      (tv.view am = none ↔ tv = .Null) ∧
      (∀ h : Nat, tv.view am = some h ↔ tv = .RawSRV h) ∧
      (tv = .Null → tv.view_unchecked am = 0) ∧
      (∀ h : Nat, tv = .RawSRV h → tv.view_unchecked am = h) := by
  intro am tv
  cases tv <;>
    refine ⟨?_, ?_, ?_, ?_⟩ <;>
    simp [TextureView.view, TextureView.view_unchecked]

/-- C9 witness: a concrete raw view resolves to its own handle, and a
concrete absent view resolves to the zero sentinel through
`view_unchecked`. -/
theorem c9_textureview_witness :
    (TextureView.RawSRV 7).view ⟨[]⟩ = some 7 ∧
    TextureView.Null.view_unchecked ⟨[]⟩ = 0 :=
  ⟨((c9_textureview_null_never_yields_handle ⟨[]⟩ (.RawSRV 7)).2.1 7).mpr rfl,
   (c9_textureview_null_never_yields_handle ⟨[]⟩ .Null).2.2.1 rfl⟩

/-- Which kinds the `extern_lookup!` invocation in `get_value_inner`
(externs.rs lines 188-197) maps to a storage slot. -/
def TfxExtern.hasStruct : TfxExtern → Bool
  | .Frame => true
  | .View => true
  | .Deferred => true
  | .DeferredLight => true
  | .Transparent => true
  | .RigidModel => true
  | .Decal => true
  | .SimpleGeometry => true
  | _ => false

/-- Whether the storage holds a populated instance for the kind (`false`
for kinds with no slot at all). -/
def ExternStorage.slotSet (s : ExternStorage) : TfxExtern → Bool
  | .Frame => s.frame.isSome
  | .View => s.view.isSome
  | .Deferred => s.deferred.isSome
  | .DeferredLight => s.deferred_light.isSome
  | .Transparent => s.transparent.isSome
  | .RigidModel => s.rigid_model.isSome
  | .Decal => s.decal.isSome
  | .SimpleGeometry => s.simple_geometry.isSome
  | _ => false

/-- The offsets registered for a kind's struct (empty for kinds with no
registered struct). -/
def TfxExtern.registeredOffsets : TfxExtern → List Nat
  | .Frame => Frame.fields.map (fun g => g.offset)
  | .View => View.fields.map (fun g => g.offset)
  | .Deferred => Deferred.fields.map (fun g => g.offset)
  | .DeferredLight => DeferredLight.fields.map (fun g => g.offset)
  | .Transparent => Transparent.fields.map (fun g => g.offset)
  | .RigidModel => RigidModel.fields.map (fun g => g.offset)
  | .Decal => Decal.fields.map (fun g => g.offset)
  | .SimpleGeometry => SimpleGeometry.fields.map (fun g => g.offset)
  | _ => []

lemma slotNotSet {S : Type} {slot : Option S} (gf : S → ExternValue)
    (hs : slot.isSome = false) :
    (slot.map gf).getD .externNotSet = .externNotSet := by
  cases slot with
  | none => rfl
  | some v => cases hs

lemma slotFieldNotFound {S : Type} {slot : Option S}
    {fields : List (ExternField S)} {T : FieldType} {offset : Nat}
    (hset : slot.isSome = true)
    (hoff : offset ∉ fields.map (fun g => g.offset)) :
    (slot.map (fun v => getFieldImpl fields v T offset)).getD .externNotSet =
      .fieldNotFound := by
  cases slot with
  | none => cases hset
  | some v =>
    show getFieldImpl fields v T offset = .fieldNotFound
    exact getFieldImpl_fieldNotFound fields v T offset
      (fun f hf he => hoff (he ▸ List.mem_map_of_mem (fun g => g.offset) hf))

/-- C5: the resolver's case analysis.  A kind with no registered backing
struct answers `ExternNotFound` whatever the offset; a registered kind whose
instance is not populated answers `ExternNotSet`; a populated registered
kind queried at an offset its struct does not register answers
`FieldNotFound` (otherwise the per-struct lookup decides). -/
theorem c5_resolver_case_analysis :
    ∀ (s : ExternStorage) (ext : TfxExtern) (T : FieldType) (offset : Nat),
      (ext.hasStruct = false →
        s.get_value_inner ext T offset = .externNotFound) ∧
      (ext.hasStruct = true → s.slotSet ext = false →
        s.get_value_inner ext T offset = .externNotSet) ∧
      (s.slotSet ext = true → offset ∉ ext.registeredOffsets →
        s.get_value_inner ext T offset = .fieldNotFound) := by
  intro s ext T offset
  cases ext <;>
    refine ⟨?_, ?_, ?_⟩ <;>
    first
      | (intro h; exact Bool.noConfusion h)
      | (intro hset hoff; exact slotFieldNotFound hset hoff)
      | (intro h hs; exact slotNotSet _ hs)
      | (intro h; rfl)

/-- C5 witness: `Atmosphere` (no registered struct) answers
`ExternNotFound`; `View` registered but unpopulated answers `ExternNotSet`;
`View` populated but queried at the unregistered offset 0x08 answers
`FieldNotFound`. -/
theorem c5_resolver_witness :
    ExternStorage.empty.get_value_inner .Atmosphere .f32 0 = .externNotFound ∧
    ExternStorage.empty.get_value_inner .View .f32 0 = .externNotSet ∧
    ({ ExternStorage.empty with view := some View.default }
      : ExternStorage).get_value_inner .View .f32 0x08 = .fieldNotFound :=
  ⟨(c5_resolver_case_analysis ExternStorage.empty .Atmosphere .f32 0).1 rfl,
   (c5_resolver_case_analysis ExternStorage.empty .View .f32 0).2.1 rfl rfl,
   (c5_resolver_case_analysis
      { ExternStorage.empty with view := some View.default } .View .f32 0x08).2.2
     rfl (by decide)⟩

/-! ## Diagnostics: what each failure records -/

/-- The (key, error_type) pair each failing arm of
`ExternStorage::get_value` records, read off externs.rs lines 90-168. -/
def failureRecord (ext : TfxExtern) (T : FieldType) (offset : Nat) :
    ExternValue → Option (String × TfxExpressionErrorType)
  | .value _ => none
  | .unimplemented =>
    some (keyUnimplemented ext T offset, .Unimplemented offset)
  | .invalidType t => some (keyInvalidType ext T offset, .InvalidType t)
  | .fieldNotFound =>
    some (keyFieldNotFound ext T offset, .Unimplemented offset)
  | .externNotFound =>
    some (keyExternNotFound ext, .ExternNotSet "Extern not found")
  | .externNotSet =>
    some (keyExternNotSet ext, .ExternNotSet "Extern not set")

lemma get_value_snd (s : ExternStorage) (ext : TfxExtern) (T : FieldType)
    (offset : Nat) :
    (s.get_value ext T offset).2 =
      { s with errors :=
          match failureRecord ext T offset (s.get_value_inner ext T offset) with
          | none => s.errors
          | some ket => s.errors.bump ket.1 ket.2 } := by
  cases h : s.get_value_inner ext T offset <;>
    simp [ExternStorage.get_value, failureRecord, h]

lemma get_value_inner_mk_errors (fr : Option Frame) (vw : Option View)
    (df : Option Deferred) (dl : Option DeferredLight) (tr : Option Transparent)
    (rm : Option RigidModel) (dc : Option Decal) (sg : Option SimpleGeometry)
    (e1 e2 : ErrorMap) (ext : TfxExtern) (T : FieldType) (offset : Nat) :
    (ExternStorage.mk fr vw df dl tr rm dc sg e1).get_value_inner ext T offset =
      (ExternStorage.mk fr vw df dl tr rm dc sg e2).get_value_inner ext T offset := by
  cases ext <;> rfl

lemma lookup_bump_absent (m : ErrorMap) (k : String)
    (et : TfxExpressionErrorType) (h : m.lookup k = none) :
    (m.bump k et).lookup k = some ⟨et, 1⟩ := by
  induction m with
  | nil => simp [ErrorMap.bump, ErrorMap.lookup, usizeSize]
  | cons a t ih =>
    rcases a with ⟨ka, ea⟩
    by_cases hk : ka = k
    · subst hk; simp [ErrorMap.lookup] at h
    · simp only [ErrorMap.lookup, hk, if_false] at h
      simp only [ErrorMap.bump, hk, if_false, ErrorMap.lookup]
      exact ih h

lemma lookup_bump_present (m : ErrorMap) (k : String)
    (et : TfxExpressionErrorType) (e : TfxExpressionError)
    (h : m.lookup k = some e) :
    (m.bump k et).lookup k =
      some ⟨e.error_type, (e.repeat_count + 1) % usizeSize⟩ := by
  induction m with
  | nil => simp [ErrorMap.lookup] at h
  | cons a t ih =>
    rcases a with ⟨ka, ea⟩
    by_cases hk : ka = k
    · subst hk
      simp only [ErrorMap.lookup, if_pos, Option.some.injEq] at h
      subst h
      simp [ErrorMap.bump, ErrorMap.lookup]
    · simp only [ErrorMap.lookup, hk, if_false] at h
      simp only [ErrorMap.bump, hk, if_false, ErrorMap.lookup]
      exact ih h

lemma countKey_eq_zero_of_lookup_none (m : ErrorMap) (k : String)
    (h : m.lookup k = none) : m.countKey k = 0 := by
  induction m with
  | nil => rfl
  | cons a t ih =>
    rcases a with ⟨ka, ea⟩
    by_cases hk : ka = k
    · subst hk; simp [ErrorMap.lookup] at h
    · simp only [ErrorMap.lookup, hk, if_false] at h
      simp only [ErrorMap.countKey, hk, if_false, ih h]

lemma countKey_bump_absent (m : ErrorMap) (k : String)
    (et : TfxExpressionErrorType) (h : m.lookup k = none) :
    (m.bump k et).countKey k = m.countKey k + 1 := by
  induction m with
  | nil => simp [ErrorMap.bump, ErrorMap.countKey]
  | cons a t ih =>
    rcases a with ⟨ka, ea⟩
    by_cases hk : ka = k
    · subst hk; simp [ErrorMap.lookup] at h
    · simp only [ErrorMap.lookup, hk, if_false] at h
      simp only [ErrorMap.bump, hk, if_false, ErrorMap.countKey, ih h]
      omega

lemma countKey_bump_present (m : ErrorMap) (k : String)
    (et : TfxExpressionErrorType) (e : TfxExpressionError)
    (h : m.lookup k = some e) :
    (m.bump k et).countKey k = m.countKey k := by
  induction m with
  | nil => simp [ErrorMap.lookup] at h
  | cons a t ih =>
    rcases a with ⟨ka, ea⟩
    by_cases hk : ka = k
    · subst hk; simp [ErrorMap.bump, ErrorMap.countKey]
    · simp only [ErrorMap.lookup, hk, if_false] at h
      simp only [ErrorMap.bump, hk, if_false, ErrorMap.countKey, ih h]

lemma bump_iterate (m : ErrorMap) (k : String) (et : TfxExpressionErrorType)
    (h : m.lookup k = none) :
    ∀ n, 1 ≤ n →
      ((fun mm => ErrorMap.bump mm k et)^[n] m).lookup k =
        some ⟨et, n % usizeSize⟩ ∧
      ((fun mm => ErrorMap.bump mm k et)^[n] m).countKey k = 1 := by
  intro n hn
  induction n with
  | zero => omega
  | succ n ih =>
    rcases Nat.eq_zero_or_pos n with hz | hpos
    · subst hz
      have h1 : (1 : Nat) % usizeSize = 1 :=
        Nat.mod_eq_of_lt (by norm_num [usizeSize])
      refine ⟨?_, ?_⟩
      · rw [Function.iterate_one, h1]
        exact lookup_bump_absent m k et h
      · rw [Function.iterate_one, countKey_bump_absent m k et h,
          countKey_eq_zero_of_lookup_none m k h]
    · obtain ⟨ihl, ihc⟩ := ih hpos
      rw [Function.iterate_succ_apply']
      refine ⟨?_, by rw [countKey_bump_present _ k et _ ihl, ihc]⟩
      rw [lookup_bump_present _ k et _ ihl, Nat.mod_add_mod]

lemma get_value_iterate (ext : TfxExtern) (T : FieldType) (offset : Nat)
    (s : ExternStorage) (k : String) (et : TfxExpressionErrorType)
    (h : failureRecord ext T offset (s.get_value_inner ext T offset) =
      some (k, et)) :
    ∀ n, (fun st => (ExternStorage.get_value st ext T offset).2)^[n] s =
      { s with errors := (fun mm => ErrorMap.bump mm k et)^[n] s.errors } := by
  obtain ⟨fr, vw, df, dl, tr, rm, dc, sg, errs⟩ := s
  intro n
  induction n with
  | zero => rfl
  | succ n ih =>
    rw [Function.iterate_succ_apply', Function.iterate_succ_apply', ih]
    have h2 : failureRecord ext T offset
        ((ExternStorage.mk fr vw df dl tr rm dc sg
          ((fun mm => ErrorMap.bump mm k et)^[n] errs)).get_value_inner
            ext T offset) = some (k, et) := by
      rw [get_value_inner_mk_errors fr vw df dl tr rm dc sg _ errs]
      exact h
    rw [get_value_snd, h2]

lemma get_value_iterate_errors (ext : TfxExtern) (T : FieldType) (offset : Nat)
    (s : ExternStorage) (k : String) (et : TfxExpressionErrorType)
    (h : failureRecord ext T offset (s.get_value_inner ext T offset) =
      some (k, et)) (n : Nat) :
    ((fun st => (ExternStorage.get_value st ext T offset).2)^[n] s).errors =
      (fun mm => ErrorMap.bump mm k et)^[n] s.errors := by
  obtain ⟨fr, vw, df, dl, tr, rm, dc, sg, errs⟩ := s
  rw [get_value_iterate ext T offset _ k et h n]

/-- C6 (amended): a failing (kind, offset, type) query repeated N times
through `get_value`, starting from a diagnostic map in which that failure's
description key is absent, leaves exactly one entry for that key — never a
duplicate — and its `repeat_count` equals N modulo 2^64: exactly N for
every N below the `usize` wraparound bound. -/
theorem c6_failures_one_record_count_mod_usize :
    ∀ (s : ExternStorage) (ext : TfxExtern) (T : FieldType) (offset : Nat)
      (k : String) (et : TfxExpressionErrorType) (N : Nat),
      failureRecord ext T offset (s.get_value_inner ext T offset) =
        some (k, et) →
      s.errors.lookup k = none → 1 ≤ N →
      ((fun st => (ExternStorage.get_value st ext T offset).2)^[N] s).errors.countKey
          k = 1 ∧
      ((fun st => (ExternStorage.get_value st ext T offset).2)^[N] s).errors.lookup
          k = some ⟨et, N % usizeSize⟩ ∧
      (N < usizeSize →
        ((fun st => (ExternStorage.get_value st ext T offset).2)^[N] s).errors.lookup
          k = some ⟨et, N⟩) := by
  intro s ext T offset k et N hfail habs hN
  rw [get_value_iterate_errors ext T offset s k et hfail N]
  obtain ⟨hl, hc⟩ := bump_iterate s.errors k et habs N hN
  exact ⟨hc, hl, fun hlt => by rw [hl, Nat.mod_eq_of_lt hlt]⟩

/-- C6 witness: three identical `Atmosphere` (extern-not-found) failures
leave one diagnostic record whose repeat count is 3. -/
theorem c6_count_witness :
    ((fun st => (ExternStorage.get_value st .Atmosphere .f32 0).2)^[3]
        ExternStorage.empty).errors.countKey (keyExternNotFound .Atmosphere) = 1 ∧
    ((fun st => (ExternStorage.get_value st .Atmosphere .f32 0).2)^[3]
        ExternStorage.empty).errors.lookup (keyExternNotFound .Atmosphere) =
      some ⟨.ExternNotSet "Extern not found", 3⟩ :=
  ⟨(c6_failures_one_record_count_mod_usize ExternStorage.empty .Atmosphere
      .f32 0 (keyExternNotFound .Atmosphere) (.ExternNotSet "Extern not found")
      3 rfl rfl (by decide)).1,
   (c6_failures_one_record_count_mod_usize ExternStorage.empty .Atmosphere
      .f32 0 (keyExternNotFound .Atmosphere) (.ExternNotSet "Extern not found")
      3 rfl rfl (by decide)).2.2 (by decide)⟩

/-- C6 counterexample to the claim as stated: "repeat_count equals N" for
every N (a counter growing without bound) fails at N = 2^64.  The `usize`
counter wraps, so after 2^64 identical `Atmosphere` failures the single
diagnostic record's repeat count is 0, not 2^64. -/
theorem c6_wraparound_counterexample :
    ((fun st => (ExternStorage.get_value st .Atmosphere .f32 0).2)^[2 ^ 64]
        ExternStorage.empty).errors.lookup (keyExternNotFound .Atmosphere) =
      some ⟨.ExternNotSet "Extern not found", 0⟩ ∧ (0 : Nat) ≠ 2 ^ 64 := by
  constructor
  · rw [get_value_iterate_errors .Atmosphere .f32 0 ExternStorage.empty
      (keyExternNotFound .Atmosphere) (.ExternNotSet "Extern not found") rfl
      (2 ^ 64)]
    have hl := (bump_iterate ExternStorage.empty.errors
      (keyExternNotFound .Atmosphere) (.ExternNotSet "Extern not found") rfl
      (2 ^ 64) (by norm_num)).1
    have hm : (2 ^ 64) % usizeSize = 0 := Nat.mod_self (2 ^ 64)
    rw [hm] at hl
    exact hl
  · norm_num

/-- C7: `get_value_or_default` records exactly the diagnostic `get_value`
records (same updated storage), and returns `get_value`'s value on success
and the requested type's `default()` on any failure. -/
theorem c7_default_value_still_records_diagnostic :
    ∀ (s : ExternStorage) (ext : TfxExtern) (T : FieldType) (offset : Nat),
      (s.get_value_or_default ext T offset).2 = (s.get_value ext T offset).2 ∧
      (∀ v, (s.get_value ext T offset).1 = .ok v →
        (s.get_value_or_default ext T offset).1 = v) ∧
      (∀ msg, (s.get_value ext T offset).1 = .error msg →
        (s.get_value_or_default ext T offset).1 = T.defaultValue) := by
  intro s ext T offset
  rcases h : s.get_value ext T offset with ⟨r, s2⟩
  cases r <;> simp [ExternStorage.get_value_or_default, h]

/-- C7 witness: an unset `View` query through `get_value_or_default` returns
`f32::default()` (bit pattern 0) and leaves the same diagnostic entry the
erroring `get_value` path leaves. -/
theorem c7_default_value_witness :
    (ExternStorage.empty.get_value_or_default .View .f32 0).1 =
      FieldType.f32.defaultValue ∧
    (ExternStorage.empty.get_value_or_default .View .f32 0).2 =
      (ExternStorage.empty.get_value .View .f32 0).2 :=
  ⟨(c7_default_value_still_records_diagnostic ExternStorage.empty .View .f32
      0).2.2 ("Extern not set: View") rfl,
   (c7_default_value_still_records_diagnostic ExternStorage.empty .View .f32
      0).1⟩

lemma keyFieldNotFound_ne_keyUnimplemented (ext : TfxExtern) (T : FieldType)
    (offset : Nat) :
    keyFieldNotFound ext T offset ≠ keyUnimplemented ext T offset := by
  intro h
  have hl := congrArg String.length h
  simp only [keyFieldNotFound, keyUnimplemented, String.length_append] at hl
  have e1 : (" not found (type ").length = 17 := rfl
  have e2 : (" is unimplemented (type ").length = 24 := rfl
  omega

lemma keyExternNotFound_ne_keyExternNotSet (ext : TfxExtern) :
    keyExternNotFound ext ≠ keyExternNotSet ext := by
  intro h
  have hl := congrArg String.length h
  simp only [keyExternNotFound, keyExternNotSet, String.length_append] at hl
  have e1 : (" not found").length = 10 := rfl
  have e2 : (" not set").length = 8 := rfl
  omega

/-- C10 (amended): the structured `error_type` does not mirror the failure
taxonomy.  A fresh `FieldNotFound` failure is recorded with `error_type
Unimplemented { field_offset = offset }` — identical to what a genuine
`Unimplemented` failure records, so only the key string separates those two
— and a fresh `ExternNotFound` failure is recorded with `error_type
ExternNotSet("Extern not found")`, sharing the `ExternNotSet` constructor
with a genuine not-set failure and differing from it only in the
constructor's static message (and in the key). -/
theorem c10_error_type_conflates_taxonomy :
    ∀ (s : ExternStorage) (ext : TfxExtern) (T : FieldType) (offset : Nat),
      (s.get_value_inner ext T offset = .fieldNotFound →
        s.errors.lookup (keyFieldNotFound ext T offset) = none →
        (s.get_value ext T offset).2.errors.lookup
            (keyFieldNotFound ext T offset) =
          some ⟨.Unimplemented offset, 1⟩) ∧
      (s.get_value_inner ext T offset = .externNotFound →
        s.errors.lookup (keyExternNotFound ext) = none →
        (s.get_value ext T offset).2.errors.lookup (keyExternNotFound ext) =
          some ⟨.ExternNotSet "Extern not found", 1⟩) ∧
      (failureRecord ext T offset .fieldNotFound).map (fun r => r.2) =
        (failureRecord ext T offset .unimplemented).map (fun r => r.2) ∧
      failureRecord ext T offset .externNotFound =
        some (keyExternNotFound ext, .ExternNotSet "Extern not found") ∧
      failureRecord ext T offset .externNotSet =
        some (keyExternNotSet ext, .ExternNotSet "Extern not set") ∧
      keyFieldNotFound ext T offset ≠ keyUnimplemented ext T offset ∧
      keyExternNotFound ext ≠ keyExternNotSet ext := by
  intro s ext T offset
  refine ⟨?_, ?_, rfl, rfl, rfl,
    keyFieldNotFound_ne_keyUnimplemented ext T offset,
    keyExternNotFound_ne_keyExternNotSet ext⟩
  · intro hinner habs
    rw [get_value_snd, hinner]
    exact lookup_bump_absent s.errors _ _ habs
  · intro hinner habs
    rw [get_value_snd, hinner]
    exact lookup_bump_absent s.errors _ _ habs

/-- C10 witness: a concrete fresh `FieldNotFound` (populated View, offset
0x08) is recorded under its key with `error_type Unimplemented
{ field_offset = 8 }`. -/
theorem c10_error_type_witness :
    (({ ExternStorage.empty with view := some View.default }
        : ExternStorage).get_value .View .f32 0x08).2.errors.lookup
      (keyFieldNotFound .View .f32 0x08) =
      some ⟨.Unimplemented 0x08, 1⟩ :=
  (c10_error_type_conflates_taxonomy
      { ExternStorage.empty with view := some View.default } .View .f32 0x08).1
    (by decide) rfl

/-- C10 counterexample to the claim as stated: it is not true that only the
human-readable key distinguishes an `ExternNotFound` record from an
`ExternNotSet` record — the recorded structured `error_type`s differ too
(`ExternNotSet("Extern not found")` vs `ExternNotSet("Extern not set")`),
shown here at concrete failing queries. -/
theorem c10_key_not_sole_distinguisher :
    ((ExternStorage.empty.get_value .Atmosphere .f32 0).2.errors.lookup
        (keyExternNotFound .Atmosphere)).map (fun r => r.error_type) ≠
      ((ExternStorage.empty.get_value .View .f32 0).2.errors.lookup
        (keyExternNotSet .View)).map (fun r => r.error_type) := by
  decide

lemma load_technique_stage_total (gctx : GpuContext) (sh : STechniqueShader)
    (st : TfxShaderStage)
    (hm : sh.shader.isNone = false → ∃ m, gctx.loadShaderModule sh.shader = .ok m) :
    ∃ r, load_technique_stage gctx sh st = .ok r := by
  by_cases hs : sh.shader.isNone
  · exact ⟨none, by simp [load_technique_stage, hs]⟩
  · obtain ⟨m, hmok⟩ := hm (Bool.not_eq_true _ ▸ hs)
    simp [load_technique_stage, hs, hmok]

/-- C8: a bytecode stream that fails to decode for one shader stage does not
abort loading.  The stage still loads (`Ok(Some ..)`) with its interpreter
set to `None`; the whole technique loads whenever each present shader's
module loads, with no condition at all on any stage's bytecode; and each
stage slot of a loaded technique is exactly its own stage's load result, so
a decode failure never leaks into a sibling stage. -/
theorem c8_decode_failure_degrades_stage_only :
    (∀ (gctx : GpuContext) (sh : STechniqueShader) (st : TfxShaderStage)
        (m : ShaderModule) (e : String),
      sh.shader.isNone = false →
      gctx.loadShaderModule sh.shader = .ok m →
      TfxBytecodeOp.parse_all sh.bytecode = .error e →
      ∃ stage, load_technique_stage gctx sh st = .ok (some stage) ∧
        stage.bytecode = none ∧ stage.shader_module = m ∧
        stage.stage = st ∧ stage.shader = sh) ∧
    (∀ (gctx : GpuContext) (stech : STechnique),
      (∀ sh ∈ [stech.shader_vertex, stech.shader_geometry, stech.shader_pixel,
          stech.shader_compute],
        sh.shader.isNone = false →
          ∃ m, gctx.loadShaderModule sh.shader = .ok m) →
      ∃ t, load_technique gctx stech = .ok t) ∧
    (∀ (gctx : GpuContext) (stech : STechnique) (t : Technique),
      load_technique gctx stech = .ok t →
      load_technique_stage gctx stech.shader_vertex .Vertex = .ok t.stage_vertex ∧
      load_technique_stage gctx stech.shader_geometry .Geometry =
        .ok t.stage_geometry ∧
      load_technique_stage gctx stech.shader_pixel .Pixel = .ok t.stage_pixel ∧
      load_technique_stage gctx stech.shader_compute .Compute =
        .ok t.stage_compute) := by
  refine ⟨?_, ?_, ?_⟩
  · intro gctx sh st m e hsome hmod hparse
    have hstage : load_technique_stage gctx sh st = .ok (some
        { stage := st
          shader := sh
          samplers := sh.samplers.map (fun h => (gctx.loadSampler h).toOption)
          textures := []
          shader_module := m
          cbuffer := match sh.constant_buffer with
            | some cb => some (gctx.readTagData cb)
            | none => if sh.unk50.isEmpty then none else some sh.unk50
          bytecode := none }) := by
      simp [load_technique_stage, hsome, hmod, hparse]
    exact ⟨_, hstage, rfl, rfl, rfl, rfl⟩
  · intro gctx stech hmods
    obtain ⟨rv, hv⟩ := load_technique_stage_total gctx stech.shader_vertex
      .Vertex (hmods _ (by simp))
    obtain ⟨rg, hg⟩ := load_technique_stage_total gctx stech.shader_geometry
      .Geometry (hmods _ (by simp))
    obtain ⟨rp, hp⟩ := load_technique_stage_total gctx stech.shader_pixel
      .Pixel (hmods _ (by simp))
    obtain ⟨rc, hc⟩ := load_technique_stage_total gctx stech.shader_compute
      .Compute (hmods _ (by simp))
    exact ⟨⟨rv, rg, rp, rc, stech⟩, by simp [load_technique, hv, hg, hp, hc]⟩
  · intro gctx stech t h
    unfold load_technique at h
    cases hv : load_technique_stage gctx stech.shader_vertex .Vertex with
    | error e => rw [hv] at h; exact absurd h (by simp)
    | ok sv =>
      rw [hv] at h
      cases hg : load_technique_stage gctx stech.shader_geometry .Geometry with
      | error e => rw [hg] at h; exact absurd h (by simp)
      | ok sg =>
        rw [hg] at h
        cases hp : load_technique_stage gctx stech.shader_pixel .Pixel with
        | error e => rw [hp] at h; exact absurd h (by simp)
        | ok sp =>
          rw [hp] at h
          cases hc : load_technique_stage gctx stech.shader_compute .Compute with
          | error e => rw [hc] at h; exact absurd h (by simp)
          | ok sc =>
            rw [hc] at h
            obtain rfl : (⟨sv, sg, sp, sc, stech⟩ : Technique) = t := by
              simpa using h
            exact ⟨rfl, rfl, rfl, rfl⟩

/-- A concrete oracle record for the loader: tag reads return nothing,
shader modules load from their tag, samplers always load. -/
def gctxTest : GpuContext :=
  { readTagData := fun _ => []
    loadShaderModule := fun t =>
      match t with
      | some h => .ok ⟨h⟩
      | none => .error "no shader tag"
    loadSampler := fun h => .ok h }

/-- A stage shader whose bytecode stream is corrupt: byte 9 is no opcode. -/
def corruptShader : STechniqueShader := ⟨some 1, none, [], [9], []⟩

/-- C8 witness: the corrupt-bytecode stage loads successfully with its
interpreter set to none. -/
theorem c8_decode_failure_witness :
    ∃ stage, load_technique_stage gctxTest corruptShader .Vertex =
      .ok (some stage) ∧ stage.bytecode = none ∧
      stage.shader_module = ShaderModule.mk 1 ∧
      stage.stage = TfxShaderStage.Vertex ∧ stage.shader = corruptShader :=
  c8_decode_failure_degrades_stage_only.1 gctxTest corruptShader .Vertex
    (ShaderModule.mk 1)
    ("malformed TFX bytecode at opcode byte " ++ toHexUpper 9) rfl rfl rfl

end Alkahest
